import Mathlib

/-!
Shallow embedding of the `drugihor/validator` email-validation engine.

Source files embedded:
- `validator.py`: `Proxy`, `ValidationResult`, `EmailValidator` with the five
  probes (`validate_smtp`, `validate_mx`, `validate_imap`, `validate_pop3`,
  `validate_http`), domain extraction and the disposable filter.
- `app.py`: `try_methods_sync` (the method escalator), `_append_result_csv`,
  `_update_stats_after_check`, and the batch loop of
  `validate_multiple_emails_api`.

Network I/O is abstracted by an oracle (`Network`): every network operation
the source would perform consults the oracle and is recorded as a `NetEvent`
in an event trace, so "no network I/O attempted" is expressible as an empty
trace.  Python exceptions raised by library calls are modelled as oracle
outcomes (connection failure, protocol error, unexpected exception); Python
`None` is modelled by `Option`, string truthiness by `String.isEmpty`.
-/

set_option autoImplicit false

namespace Validator

/-!
Python string primitives (`in`, `split`, `replace`, `lower`, truthiness)
are modelled by structurally recursive functions over `String.data`, so
that every definition evaluates inside the kernel.
-/

/-- Single apostrophe character, used when mirroring Python `repr` output
and Python `str.replace` of quotes. -/
def apos : Char := Char.ofNat 39

/-- Single apostrophe as a string. -/
def sq : String := String.mk [apos]

/-- Python `s.split(sep)` for a single-character separator, over the
character list. -/
def pySplitChar (sep : Char) : List Char → List (List Char)
  | [] => [[]]
  | c :: t =>
    let r := pySplitChar sep t
    if c = sep then [] :: r
    else
      match r with
      | [] => [[c]]
      | h :: t2 => (c :: h) :: t2

/-- Python `needle in hay` over character lists. -/
def infixOf (needle : List Char) : List Char → Bool
  | [] => needle.isEmpty
  | c :: t => needle.isPrefixOf (c :: t) || infixOf needle t

/-- Python `s.replace(old, new)` for single characters. -/
def pyReplaceChar (old new : Char) (s : String) : String :=
  String.mk (s.data.map (fun x => if x = old then new else x))

/-- Python `s.lower()` (ASCII case folding as used on header values). -/
def pyLower (s : String) : String := String.mk (s.data.map Char.toLower)

/-- Python `repr` of a list of strings, as produced by an f-string such as
`f"MX records found: {[str(r.exchange) for r in mx_records]}"`. -/
def pyListRepr (xs : List String) : String :=
  "[" ++ String.intercalate ", " (xs.map (fun s => sq ++ s ++ sq)) ++ "]"

/-- Source `validator.py` `DISPOSABLE_DOMAINS` (a set of five domains). -/
def DISPOSABLE_DOMAINS : List String :=
  ["mailinator.com", "yopmail.com", "temp-mail.org", "grr.la", "guerillamail.com"]

/-- Source `validator.py` `SMTP_PORTS`. -/
def SMTP_PORTS : List Nat := [25, 587, 465]

/-- Source `validator.py` `IMAP_PORTS`. -/
def IMAP_PORTS : List Nat := [143, 993]

/-- Source `validator.py` `POP3_PORTS`. -/
def POP3_PORTS : List Nat := [110, 995]

/-- Source `validator.py` `class Proxy`: host, port and optional credentials.
The constructor takes exactly these four values; there is no scheme field. -/
structure Proxy where
  host : String
  port : Nat
  username : Option String
  password : Option String
  deriving Repr, DecidableEq

/-- Python truthiness of an `Optional[str]`: `None` and `""` are falsy. -/
def pyTruthy : Option String → Bool
  | none => false
  | some s => !s.data.isEmpty

/-- Serialization `Proxy.__str__`: `f"{auth}{host}:{port}"` where `auth` is
`f"{username}:{password}@"` when both credentials are truthy, else `""`.
Note there is no scheme prefix in the source. -/
def proxyStr (p : Proxy) : String :=
  let auth := if pyTruthy p.username && pyTruthy p.password then
      p.username.getD "" ++ ":" ++ p.password.getD "" ++ "@"
    else ""
  auth ++ p.host ++ ":" ++ toString p.port

/-- Source `validator.py` `class ValidationResult`.  `proxy` stores
`str(proxy) if proxy else None`. -/
structure ValidationResult where
  email : String
  status : String
  method : String
  details : String
  proxy : Option String
  deriving Repr, DecidableEq

/-- The `ValidationResult(email, status, method, details, proxy)` constructor:
the proxy object is serialized at construction time. -/
def mkVR (email status method details : String) (proxy : Option Proxy) :
    ValidationResult :=
  ⟨email, status, method, details, proxy.map proxyStr⟩

/-- Source `EmailValidator._get_domain_from_email`: returns `None` when the address
contains no `"@"`, otherwise `email.split('@')[1]` — the segment after the
first `"@"` (not the rightmost split). -/
def get_domain_from_email (email : String) : Option String :=
  if email.data.contains '@' then
    ((pySplitChar '@' email.data).map String.mk).get? 1
  else none

/-- Source `EmailValidator._check_disposable`: set membership of the extracted
domain (`None in set` is `False` in Python). -/
def check_disposable (email : String) : Bool :=
  match get_domain_from_email email with
  | some d => DISPOSABLE_DOMAINS.contains d
  | none => false

/-- Character class `[A-Za-z0-9.-]` of the spec's domain pattern. -/
def isClassChar (c : Char) : Bool :=
  c.isAlphanum || c = '.' || c = '-'

/-- Modelled from the spec: the label/TLD pattern `[A-Za-z0-9.-]+` then a
literal dot then `[A-Za-z]` at least twice, anchored at both ends.  The
pattern matches exactly when the part before the last dot is nonempty and
within the class and the part after the last dot is alphabetic of length at
least two.  This definition exists only to compare the spec's claimed
domain validation against the source, which performs no such check. -/
def specDomainPattern (d : String) : Bool :=
  let parts := pySplitChar '.' d.data
  let tld := parts.getLastD []
  let front := List.intercalate ['.'] parts.dropLast
  decide (parts.length ≥ 2) && !front.isEmpty && front.all isClassChar &&
    decide (tld.length ≥ 2) && tld.all Char.isAlpha

/-- One network operation attempted by a probe.  Events are recorded at the
point where the source performs the corresponding I/O call, regardless of
the call's outcome. -/
inductive NetEvent where
  | dnsMX (domain : String)
  | dnsA (domain : String)
  | smtpConnect (host : String) (port : Nat)
  | imapConnect (host : String) (port : Nat)
  | pop3Connect (host : String) (port : Nat)
  | httpHead (url : String)
  deriving Repr, DecidableEq

/-- Outcome of `dns.resolver.resolve(domain, 'MX')`: an answer (possibly
empty), `NoAnswer`/`NXDOMAIN`, a DNS timeout, or any other exception. -/
inductive DnsMX where
  | records (hosts : List String)
  | noAnswer
  | nxdomain
  | timeout
  | failure (msg : String)
  deriving Repr, DecidableEq

/-- Outcome of `dns.resolver.resolve(domain, 'A')`. -/
inductive DnsA where
  | found
  | noAnswer
  | nxdomain
  | timeout
  | failure (msg : String)
  deriving Repr, DecidableEq

/-- Outcome of one `smtplib.SMTP(host, port)` session in `validate_smtp`:
the server disconnected (`SMTPServerDisconnected`), the connection failed
(`socket.timeout` / `SMTPConnectError` / `ConnectionRefusedError`), an
unexpected exception, or an RCPT TO reply `(code, msg)`. -/
inductive SmtpConn where
  | disconnected
  | connectFail
  | sessionFail (msg : String)
  | reply (code : Nat) (msg : String)
  deriving Repr, DecidableEq

/-- Outcome of one IMAP/POP3 connect-and-login attempt: login succeeded,
the server rejected the login (`imaplib.IMAP4.error` / `poplib.error_proto`),
the connection failed (`socket.timeout` / `ConnectionRefusedError` /
`OSError`), or some other exception. -/
inductive LoginConn where
  | loginOk
  | loginFail (msg : String)
  | connFail
  | otherExn (msg : String)
  deriving Repr, DecidableEq

/-- Outcome of `requests.head(url, ...)`: a response with a status code and
a `Server` header value, or a raised exception. -/
inductive HttpResp where
  | resp (status : Nat) (server : String)
  | exn (msg : String)
  deriving Repr, DecidableEq

/-- Network oracle: what the outside world answers to each operation the
probes may perform. -/
structure Network where
  dnsMX : String → DnsMX
  dnsA : String → DnsA
  smtp : String → Nat → SmtpConn
  imap : String → Nat → LoginConn
  pop3 : String → Nat → LoginConn
  http : String → HttpResp

namespace EmailValidator

/-- Result of the inner `for port in SMTP_PORTS` loop body of
`validate_smtp`: the body either returns a verdict, raises a
connection-class exception (caught by the outer loop's `continue`
branches), or raises an unexpected exception (caught by the outer
`return error` branch).  `fellThrough` is the loop finishing without any
iteration (only possible on an empty port list). -/
inductive SmtpInner where
  | ret (v : ValidationResult)
  | connExn
  | fatal (msg : String)
  | fellThrough
  deriving Repr, DecidableEq

/-- Inner port loop of `validate_smtp` for one MX host.  Note that every
branch of the body returns or raises, so the loop never reaches a second
port: a connection-class exception on the first port aborts the remaining
ports of this host (the `try` wraps the whole port loop). -/
def smtp_ports_loop (conn : Nat → SmtpConn) (email host : String)
    (proxy : Option Proxy) : List Nat → SmtpInner × List NetEvent
  | [] => (.fellThrough, [])
  | port :: _rest =>
    match conn port with
    | .disconnected => (.connExn, [.smtpConnect host port])
    | .connectFail => (.connExn, [.smtpConnect host port])
    | .sessionFail m => (.fatal m, [.smtpConnect host port])
    | .reply code msg =>
      let v :=
        if code = 250 then
          mkVR email "valid" "smtp" "SMTP RCPT TO success" proxy
        else if code = 550 then
          mkVR email "invalid" "smtp" ("SMTP RCPT TO failed: " ++ msg) proxy
        else
          mkVR email "invalid" "smtp"
            ("SMTP RCPT TO: unexpected code " ++ toString code ++ " - " ++ msg) proxy
      (.ret v, [.smtpConnect host port])

/-- Outer `for mx_host in mx_records` loop of `validate_smtp`: a returned
verdict or an unexpected exception ends the function, a connection-class
exception continues with the next host, and exhausting all hosts yields the
final `invalid` fallthrough verdict. -/
def smtp_hosts_loop (net : Network) (email : String) (proxy : Option Proxy) :
    List String → ValidationResult × List NetEvent
  | [] =>
    (mkVR email "invalid" "smtp"
      "Could not validate via SMTP (all MX servers failed or refused)" proxy, [])
  | host :: rest =>
    match smtp_ports_loop (net.smtp host) email host proxy SMTP_PORTS with
    | (.ret v, ev) => (v, ev)
    | (.fatal m, ev) =>
      (mkVR email "error" "smtp" ("Unexpected SMTP error: " ++ m) proxy, ev)
    | (.connExn, ev) =>
      let r := smtp_hosts_loop net email proxy rest
      (r.1, ev ++ r.2)
    | (.fellThrough, ev) =>
      let r := smtp_hosts_loop net email proxy rest
      (r.1, ev ++ r.2)

/-- Source `EmailValidator.validate_smtp`.  The password parameter is accepted and
ignored, as in the source.  Early exits (malformed address, disposable
domain) happen before any network event is recorded. -/
def validate_smtp (net : Network) (email : String) (_password : String)
    (proxy : Option Proxy) : ValidationResult × List NetEvent :=
  match get_domain_from_email email with
  | none => (mkVR email "error" "smtp" "Invalid email format" proxy, [])
  | some d =>
    if d.data.isEmpty then
      (mkVR email "error" "smtp" "Invalid email format" proxy, [])
    else if check_disposable email then
      (mkVR email "disposable" "smtp" "Disposable email detected" proxy, [])
    else
      match net.dnsMX d with
      | .records hosts =>
        if hosts.isEmpty then
          (mkVR email "invalid" "smtp" "No MX records found for domain" proxy,
            [.dnsMX d])
        else
          let r := smtp_hosts_loop net email proxy hosts
          (r.1, .dnsMX d :: r.2)
      | .noAnswer =>
        (mkVR email "invalid" "smtp" "Could not resolve MX records" proxy, [.dnsMX d])
      | .nxdomain =>
        (mkVR email "invalid" "smtp" "Could not resolve MX records" proxy, [.dnsMX d])
      | .timeout =>
        (mkVR email "invalid" "smtp" "Could not resolve MX records" proxy, [.dnsMX d])
      | .failure m =>
        (mkVR email "error" "smtp" ("MX lookup error: " ++ m) proxy, [.dnsMX d])

/-- Source `EmailValidator.validate_mx`. -/
def validate_mx (net : Network) (email : String) (proxy : Option Proxy) :
    ValidationResult × List NetEvent :=
  match get_domain_from_email email with
  | none => (mkVR email "error" "mx" "Invalid email format" proxy, [])
  | some d =>
    if d.data.isEmpty then
      (mkVR email "error" "mx" "Invalid email format" proxy, [])
    else if check_disposable email then
      (mkVR email "disposable" "mx" "Disposable email detected" proxy, [])
    else
      match net.dnsMX d with
      | .records hosts =>
        if hosts.isEmpty then
          (mkVR email "invalid" "mx" "No MX records found for domain" proxy, [.dnsMX d])
        else
          (mkVR email "valid" "mx" ("MX records found: " ++ pyListRepr hosts) proxy,
            [.dnsMX d])
      | .noAnswer =>
        (mkVR email "invalid" "mx" "Domain does not exist or has no MX records" proxy,
          [.dnsMX d])
      | .nxdomain =>
        (mkVR email "invalid" "mx" "Domain does not exist or has no MX records" proxy,
          [.dnsMX d])
      | .timeout =>
        (mkVR email "error" "mx" "DNS MX lookup timed out" proxy, [.dnsMX d])
      | .failure m =>
        (mkVR email "error" "mx" ("MX lookup error: " ++ m) proxy, [.dnsMX d])

/-- Result of the inner port loop of `validate_imap` / `validate_pop3`:
either the body returned a verdict, or the port list was exhausted (every
port hit a connection-class failure and `continue`d), or an unexpected
exception aborted this host (caught by the outer host loop's
`continue`). -/
inductive LoginInner where
  | ret (v : ValidationResult)
  | exhausted
  | hostAbort
  deriving Repr, DecidableEq

/-- Inner port loop of `validate_imap` for one host: success returns
`valid`, an explicit `imaplib.IMAP4.error` returns `invalid`, a
connection-class failure continues with the next port, any other exception
propagates to the host loop. -/
def imap_ports_loop (conn : Nat → LoginConn) (email host : String)
    (proxy : Option Proxy) : List Nat → LoginInner × List NetEvent
  | [] => (.exhausted, [])
  | port :: rest =>
    match conn port with
    | .loginOk =>
      (.ret (mkVR email "valid" "imap" "IMAP login successful" proxy),
        [.imapConnect host port])
    | .loginFail m =>
      (.ret (mkVR email "invalid" "imap" ("IMAP login failed: " ++ m) proxy),
        [.imapConnect host port])
    | .connFail =>
      let r := imap_ports_loop conn email host proxy rest
      (r.1, .imapConnect host port :: r.2)
    | .otherExn _ => (.hostAbort, [.imapConnect host port])

/-- Outer host loop of `validate_imap`: exhausting every host/port
combination without an explicit login reply falls through to the `invalid`
"could not connect" verdict. -/
def imap_hosts_loop (net : Network) (email : String) (proxy : Option Proxy) :
    List String → ValidationResult × List NetEvent
  | [] =>
    (mkVR email "invalid" "imap"
      "Could not connect or login via IMAP (all attempts failed)" proxy, [])
  | host :: rest =>
    match imap_ports_loop (net.imap host) email host proxy IMAP_PORTS with
    | (.ret v, ev) => (v, ev)
    | (.exhausted, ev) =>
      let r := imap_hosts_loop net email proxy rest
      (r.1, ev ++ r.2)
    | (.hostAbort, ev) =>
      let r := imap_hosts_loop net email proxy rest
      (r.1, ev ++ r.2)

/-- Source `EmailValidator.validate_imap`.  The password check comes first (before
the disposable and domain checks), mirroring the source order. -/
def validate_imap (net : Network) (email password : String)
    (proxy : Option Proxy) : ValidationResult × List NetEvent :=
  if password.data.isEmpty then
    (mkVR email "error" "imap" "Password required for IMAP validation" proxy, [])
  else if check_disposable email then
    (mkVR email "disposable" "imap" "Disposable email detected" proxy, [])
  else
    match get_domain_from_email email with
    | none => (mkVR email "error" "imap" "Invalid email format" proxy, [])
    | some d =>
      if d.data.isEmpty then
        (mkVR email "error" "imap" "Invalid email format" proxy, [])
      else
        imap_hosts_loop net email proxy ["imap." ++ d, "mail." ++ d]

/-- Inner port loop of `validate_pop3`, analogous to IMAP with
`poplib.error_proto` as the explicit rejection. -/
def pop3_ports_loop (conn : Nat → LoginConn) (email host : String)
    (proxy : Option Proxy) : List Nat → LoginInner × List NetEvent
  | [] => (.exhausted, [])
  | port :: rest =>
    match conn port with
    | .loginOk =>
      (.ret (mkVR email "valid" "pop3" "POP3 login successful" proxy),
        [.pop3Connect host port])
    | .loginFail m =>
      (.ret (mkVR email "invalid" "pop3" ("POP3 login failed: " ++ m) proxy),
        [.pop3Connect host port])
    | .connFail =>
      let r := pop3_ports_loop conn email host proxy rest
      (r.1, .pop3Connect host port :: r.2)
    | .otherExn _ => (.hostAbort, [.pop3Connect host port])

/-- Outer host loop of `validate_pop3`. -/
def pop3_hosts_loop (net : Network) (email : String) (proxy : Option Proxy) :
    List String → ValidationResult × List NetEvent
  | [] =>
    (mkVR email "invalid" "pop3"
      "Could not connect or login via POP3 (all attempts failed)" proxy, [])
  | host :: rest =>
    match pop3_ports_loop (net.pop3 host) email host proxy POP3_PORTS with
    | (.ret v, ev) => (v, ev)
    | (.exhausted, ev) =>
      let r := pop3_hosts_loop net email proxy rest
      (r.1, ev ++ r.2)
    | (.hostAbort, ev) =>
      let r := pop3_hosts_loop net email proxy rest
      (r.1, ev ++ r.2)

/-- Source `EmailValidator.validate_pop3`. -/
def validate_pop3 (net : Network) (email password : String)
    (proxy : Option Proxy) : ValidationResult × List NetEvent :=
  if password.data.isEmpty then
    (mkVR email "error" "pop3" "Password required for POP3 validation" proxy, [])
  else if check_disposable email then
    (mkVR email "disposable" "pop3" "Disposable email detected" proxy, [])
  else
    match get_domain_from_email email with
    | none => (mkVR email "error" "pop3" "Invalid email format" proxy, [])
    | some d =>
      if d.data.isEmpty then
        (mkVR email "error" "pop3" "Invalid email format" proxy, [])
      else
        pop3_hosts_loop net email proxy ["pop3." ++ d, "mail." ++ d]

/-- Nonempty-needle substring test, mirroring Python `needle in hay`. -/
def containsSub (hay needle : String) : Bool :=
  infixOf needle.data hay.data

/-- The four URL patterns tried by `validate_http`. -/
def http_urls (d : String) : List String :=
  ["https://mail." ++ d, "https://webmail." ++ d, "https://login." ++ d,
    "https://" ++ d]

/-- URL loop of `validate_http`: carries `last_error` across failed
attempts; a response whose status is outside the accepted list silently
falls through to the next URL without updating `last_error`. -/
def http_loop (net : Network) (email : String) (proxy : Option Proxy) :
    List String → Option String →
    Option ValidationResult × Option String × List NetEvent
  | [], lastError => (none, lastError, [])
  | url :: rest, lastError =>
    match net.http url with
    | .resp status server =>
      if status ∈ [200, 301, 302, 403, 405] then
        let v :=
          if ["mail", "exchange", "postfix"].any
              (fun k => containsSub (pyLower server) k) then
            mkVR email "valid" "http"
              ("Mail server detected at " ++ url ++ ", status: " ++ toString status)
              proxy
          else if status ∈ [200, 301, 302] then
            mkVR email "valid" "http"
              ("Web service accessible at " ++ url ++ ", status: " ++
                toString status) proxy
          else
            mkVR email "valid" "http"
              ("Service exists at " ++ url ++ ", status: " ++ toString status) proxy
        (some v, lastError, [.httpHead url])
      else
        let r := http_loop net email proxy rest lastError
        (r.1, r.2.1, .httpHead url :: r.2.2)
    | .exn m =>
      let r := http_loop net email proxy rest (some m)
      (r.1, r.2.1, .httpHead url :: r.2.2)

/-- Source `EmailValidator.validate_http`: URL probing followed by a DNS A-record
fallback when no URL yielded an acceptable status. -/
def validate_http (net : Network) (email : String) (proxy : Option Proxy) :
    ValidationResult × List NetEvent :=
  match get_domain_from_email email with
  | none => (mkVR email "error" "http" "Invalid email format" proxy, [])
  | some d =>
    if d.data.isEmpty then
      (mkVR email "error" "http" "Invalid email format" proxy, [])
    else if check_disposable email then
      (mkVR email "disposable" "http" "Disposable email detected" proxy, [])
    else
      match http_loop net email proxy (http_urls d) none with
      | (some v, _, ev) => (v, ev)
      | (none, lastError, ev) =>
        match net.dnsA d with
        | .found =>
          (mkVR email "invalid" "http"
            ("Domain exists but no web services accessible. Last error: " ++
              lastError.getD "None") proxy, ev ++ [.dnsA d])
        | .noAnswer =>
          (mkVR email "invalid" "http" "Domain does not exist" proxy, ev ++ [.dnsA d])
        | .nxdomain =>
          (mkVR email "invalid" "http" "Domain does not exist" proxy, ev ++ [.dnsA d])
        | .timeout =>
          (mkVR email "error" "http" "DNS timeout during validation" proxy,
            ev ++ [.dnsA d])
        | .failure m =>
          (mkVR email "error" "http" ("HTTP validation error: " ++ m) proxy,
            ev ++ [.dnsA d])

end EmailValidator

namespace App

/-- Source `app.py` `DEFAULT_METHOD_ORDER`, also the expansion of method `"auto"`. -/
def DEFAULT_METHOD_ORDER : List String := ["smtp", "mx", "imap", "pop3", "http"]

/-- Outcome of a probe invocation as observed by `try_methods_sync`: a
returned `ValidationResult` or a raised exception (whose `repr` is carried
as a string), together with the network events of the invocation. -/
inductive ProbeOutcome where
  | ok (r : ValidationResult) (events : List NetEvent)
  | exn (desc : String) (events : List NetEvent)

/-- The validator object as seen by `try_methods_sync`: each field is
`some` probe when `hasattr(email_validator_instance, "validate_...")`
holds, `none` otherwise. -/
structure ValidatorObj where
  validate_smtp : Option (String → String → Option Proxy → ProbeOutcome)
  validate_mx : Option (String → Option Proxy → ProbeOutcome)
  validate_imap : Option (String → String → Option Proxy → ProbeOutcome)
  validate_pop3 : Option (String → String → Option Proxy → ProbeOutcome)
  validate_http : Option (String → Option Proxy → ProbeOutcome)

/-- Method-name dispatch of `try_methods_sync` (lines 118-140): select the
probe by name (skipping unknown names and absent attributes) and invoke it
with or without the password as the source does. -/
def dispatch (v : ValidatorObj) (m : String) (email password : String)
    (proxy : Option Proxy) : Option ProbeOutcome :=
  if m = "smtp" then v.validate_smtp.map (fun f => f email password proxy)
  else if m = "mx" then v.validate_mx.map (fun f => f email proxy)
  else if m = "imap" then v.validate_imap.map (fun f => f email password proxy)
  else if m = "pop3" then v.validate_pop3.map (fun f => f email password proxy)
  else if m = "http" then v.validate_http.map (fun f => f email proxy)
  else none

/-- The normalized per-method result dict built by `try_methods_sync`
(`email`, `is_valid`, `status`, `method_used`, `details`, `proxy_used`).
`email` is `Option` because the batch path's synthetic missing-address
result carries `None`. -/
structure ResultDict where
  email : Option String
  is_valid : Bool
  status : String
  method_used : String
  details : String
  proxy_used : Option String
  deriving Repr, DecidableEq

/-- Python `str(getattr(result_obj, "proxy", proxy_to_use) or proxy_to_use)`:
Python `or` falls through on falsy values and `str(None)` is `"None"`. -/
def proxyUsedStr (resultProxy : Option String) (proxyToUse : Option Proxy) :
    String :=
  let fallback := match proxyToUse with
    | some p => proxyStr p
    | none => "None"
  match resultProxy with
  | some s => if s.data.isEmpty then fallback else s
  | none => fallback

/-- Normalization of a `ValidationResult` into the API result dict
(lines 146-153 of `app.py`). -/
def normalizeResult (robj : ValidationResult) (proxyToUse : Option Proxy) :
    ResultDict :=
  { email := some robj.email
  , is_valid := robj.status == "valid"
  , status := robj.status
  , method_used := robj.method
  , details := robj.details
  , proxy_used := some (proxyUsedStr robj.proxy proxyToUse) }

/-- One row appended by `_append_result_csv` (the CSV line's data fields:
routing flag, email, method, details, proxy).  The timestamp is omitted
from the model. -/
structure CsvRow where
  is_valid : Bool
  email : String
  method : String
  details : String
  proxy : Option String
  deriving Repr, DecidableEq

/-- Observable side effects of one `try_methods_sync` call: CSV rows
appended, stats updates performed (the `is_valid` flag of each), probe
methods actually invoked, per-method result dicts in order, network events,
and `time.sleep` calls. -/
structure EscState where
  csv : List CsvRow
  statsUpdates : List Bool
  invoked : List String
  history : List ResultDict
  net : List NetEvent
  sleeps : Nat
  deriving Repr, DecidableEq

/-- The empty side-effect state. -/
def EscState.empty : EscState := ⟨[], [], [], [], [], 0⟩

/-- The synthetic fallback dict of `try_methods_sync` (lines 177-184),
returned when no listed method was supported. -/
def fallbackDict (email : String) (proxyToUse : Option Proxy) : ResultDict :=
  { email := some email
  , is_valid := false
  , status := "no_methods_supported"
  , method_used := "none"
  , details := "Validator does not support any of the requested methods"
  , proxy_used := proxyToUse.map proxyStr }

/-- The `for method in methods_order` loop of `try_methods_sync`.  `full`
is the original method order (used for the `method != methods_order[-1]`
inter-attempt sleep test), `last` the running "last result" dict.  A raised
probe exception is replaced by a synthetic error `ValidationResult`
(lines 141-143); every executed method appends one CSV row (with `"`
replaced by `'` in the details) and one stats update; a `"valid"` status
returns immediately; exhaustion returns the last dict or, when no method
ran, the fallback dict (which itself appends one CSV row and one stats
update). -/
def try_loop (v : ValidatorObj) (email password : String)
    (proxy : Option Proxy) (full : List String) :
    List String → Option ResultDict → EscState → ResultDict × EscState
  | [], last, st =>
    match last with
    | some d => (d, st)
    | none =>
      let fb := fallbackDict email proxy
      (fb, { st with
        csv := st.csv ++ [⟨false, email, "none", fb.details, fb.proxy_used⟩],
        statsUpdates := st.statsUpdates ++ [false] })
  | m :: rest, last, st =>
    match dispatch v m email password proxy with
    | none => try_loop v email password proxy full rest last st
    | some outcome =>
      let robj := match outcome with
        | .ok r _ => r
        | .exn desc _ => mkVR email "error" m ("exception: " ++ desc) proxy
      let ev := match outcome with
        | .ok _ e => e
        | .exn _ e => e
      let d := normalizeResult robj proxy
      let st := { st with
        invoked := st.invoked ++ [m],
        net := st.net ++ ev,
        history := st.history ++ [d],
        csv := st.csv ++
          [⟨d.is_valid, robj.email, d.method_used, pyReplaceChar '\"' apos d.details,
            d.proxy_used⟩],
        statsUpdates := st.statsUpdates ++ [d.is_valid] }
      if robj.status = "valid" then (d, st)
      else
        let st := if full.getLast? = some m then st
          else { st with sleeps := st.sleeps + 1 }
        try_loop v email password proxy full rest (some d) st

/-- Source `app.py` `try_methods_sync`: run the escalation loop from an empty
side-effect state. -/
def try_methods_sync (v : ValidatorObj) (email password : String)
    (methods_order : List String) (request_proxy : Option Proxy) :
    ResultDict × EscState :=
  try_loop v email password request_proxy methods_order methods_order none
    EscState.empty

/-- The real validator instance (`email_validator_instance`): all five
probe attributes are present, each delegating to the corresponding
`EmailValidator` probe over the network oracle.  The real probes never
raise (every exception path in their bodies is caught internally). -/
def realValidator (net : Network) : ValidatorObj :=
  { validate_smtp := some (fun e pw px =>
      let r := EmailValidator.validate_smtp net e pw px
      .ok r.1 r.2)
  , validate_mx := some (fun e px =>
      let r := EmailValidator.validate_mx net e px
      .ok r.1 r.2)
  , validate_imap := some (fun e pw px =>
      let r := EmailValidator.validate_imap net e pw px
      .ok r.1 r.2)
  , validate_pop3 := some (fun e pw px =>
      let r := EmailValidator.validate_pop3 net e pw px
      .ok r.1 r.2)
  , validate_http := some (fun e px =>
      let r := EmailValidator.validate_http net e px
      .ok r.1 r.2) }

/-- The batch progress counters of `app.config['stats']`. -/
structure Stats where
  total : Nat
  checked : Nat
  remaining : Nat
  good : Nat
  bad : Nat
  deriving Repr, DecidableEq

/-- Source `_update_stats_after_check`: increment `checked`, decrement `remaining`
(floored at zero via `max(0, ...)`, which is `Nat` subtraction), and
increment `good` or `bad` according to `is_valid`. -/
def update_stats (s : Stats) (is_valid : Bool) : Stats :=
  { s with
    checked := s.checked + 1
  , remaining := s.remaining - 1
  , good := if is_valid then s.good + 1 else s.good
  , bad := if is_valid then s.bad else s.bad + 1 }

/-- Apply a sequence of stats updates in order. -/
def apply_updates (s : Stats) (bs : List Bool) : Stats :=
  bs.foldl update_stats s

/-- The stats initialized by `validate_multiple_emails_api` for a batch of
`n` items. -/
def init_stats (n : Nat) : Stats := ⟨n, 0, n, 0, 0⟩

/-- One batch item of `validate_multiple_emails_api`: either a plain string
address or an object with optional address, password and proxy. -/
inductive BatchItem where
  | str (s : String)
  | obj (email : Option String) (password : String) (proxy : Option Proxy)

/-- The synthetic result for a missing address in a batch item
(lines 288-295 of `app.py`), together with its single CSV row and stats
update. -/
def missingItemResult : ResultDict × EscState :=
  ({ email := none
   , is_valid := false
   , status := "error"
   , method_used := "none"
   , details := "Email missing in item"
   , proxy_used := none },
   { EscState.empty with
     csv := [⟨false, "None", "none", "Email missing in item", none⟩],
     statsUpdates := [false] })

/-- Function `validate_item` of `validate_multiple_emails_api`: a string item uses
an empty password and no proxy; a missing or empty address short-circuits
with the synthetic error; otherwise the escalator runs. -/
def validate_item (v : ValidatorObj) (order : List String) :
    BatchItem → ResultDict × EscState
  | .str s =>
    if s.data.isEmpty then missingItemResult
    else try_methods_sync v s "" order none
  | .obj none _ _ => missingItemResult
  | .obj (some e) pw px =>
    if e.data.isEmpty then missingItemResult
    else try_methods_sync v e pw order px

/-- The batch loop `[validate_item(item) for item in emails_to_validate]`
(sequential in the source). -/
def run_batch (v : ValidatorObj) (order : List String)
    (items : List BatchItem) : List (ResultDict × EscState) :=
  items.map (validate_item v order)

/-- All stats updates performed during a batch, in order. -/
def batch_updates (v : ValidatorObj) (order : List String)
    (items : List BatchItem) : List Bool :=
  (run_batch v order items).foldr (fun p acc => p.2.statsUpdates ++ acc) []

/-- The final progress counters after a batch: the per-item updates applied
to the freshly initialized stats. -/
def batch_final_stats (v : ValidatorObj) (order : List String)
    (items : List BatchItem) : Stats :=
  apply_updates (init_stats items.length) (batch_updates v order items)

end App

/-!
Concrete network oracles used as test fixtures for the claims below.
-/

/-- A network where nothing answers: DNS yields no answer and every
connection attempt fails. -/
def deadNet : Network :=
  { dnsMX := fun _ => .noAnswer
  , dnsA := fun _ => .noAnswer
  , smtp := fun _ _ => .connectFail
  , imap := fun _ _ => .connFail
  , pop3 := fun _ _ => .connFail
  , http := fun _ => .exn "connection refused" }

/-- A network with one MX record whose SMTP server answers RCPT TO with
the unexpected reply code 471. -/
def net471 : Network :=
  { dnsMX := fun _ => .records ["mx1.example.com."]
  , dnsA := fun _ => .noAnswer
  , smtp := fun _ _ => .reply 471 "greylisted"
  , imap := fun _ _ => .connFail
  , pop3 := fun _ _ => .connFail
  , http := fun _ => .exn "connection refused" }

/-- A network with one MX record whose SMTP server refuses every
connection. -/
def netUnreachable : Network :=
  { dnsMX := fun _ => .records ["mx1.example.com."]
  , dnsA := fun _ => .noAnswer
  , smtp := fun _ _ => .connectFail
  , imap := fun _ _ => .connFail
  , pop3 := fun _ _ => .connFail
  , http := fun _ => .exn "connection refused" }

/-!
Fake probe fixtures for exercising the escalation policy in isolation.
-/

/-- A fake `valid` MX verdict. -/
def mxValidVR : ValidationResult :=
  ⟨"user@example.com", "valid", "mx", "fake MX records found", none⟩

/-- A fake `invalid` MX verdict. -/
def mxInvalidVR : ValidationResult :=
  ⟨"user@example.com", "invalid", "mx", "fake no MX records", none⟩

/-- A fake `error` SMTP verdict. -/
def smtpErrorVR : ValidationResult :=
  ⟨"user@example.com", "error", "smtp", "fake SMTP failure", none⟩

/-- A fake `invalid` SMTP verdict. -/
def smtpInvalidVR : ValidationResult :=
  ⟨"user@example.com", "invalid", "smtp", "fake SMTP rejection", none⟩

/-- Fake validator whose MX probe returns `valid` and whose SMTP probe
returns `error`; IMAP/POP3/HTTP attributes absent. -/
def fakeValidatorA : App.ValidatorObj :=
  { validate_smtp := some (fun _ _ _ => .ok smtpErrorVR [])
  , validate_mx := some (fun _ _ => .ok mxValidVR [])
  , validate_imap := none
  , validate_pop3 := none
  , validate_http := none }

/-- Fake validator whose MX probe returns `invalid` and whose SMTP probe
returns `error`. -/
def fakeValidatorB : App.ValidatorObj :=
  { validate_smtp := some (fun _ _ _ => .ok smtpErrorVR [])
  , validate_mx := some (fun _ _ => .ok mxInvalidVR [])
  , validate_imap := none
  , validate_pop3 := none
  , validate_http := none }

/-- Fake validator whose MX probe raises an exception and whose SMTP probe
returns an `invalid` verdict. -/
def fakeValidatorExn : App.ValidatorObj :=
  { validate_smtp := some (fun _ _ _ => .ok smtpInvalidVR [])
  , validate_mx := some (fun _ _ => .exn "ValueError: boom" [])
  , validate_imap := none
  , validate_pop3 := none
  , validate_http := none }

/-!
Theorems.  Each claim of the specification audit is settled by exactly one
theorem below (plus, where needed, a closed counterexample and a closed
witness instantiation).  Shared helper lemmas come first.
-/

open App EmailValidator

/-- Applying `dispatch` at the literal name `"mx"` selects the MX probe. -/
theorem dispatch_mx_eq (v : ValidatorObj) (e pw : String) (px : Option Proxy) :
    dispatch v "mx" e pw px = v.validate_mx.map (fun f => f e px) := rfl

/-- Applying `dispatch` at the literal name `"smtp"` selects the SMTP probe. -/
theorem dispatch_smtp_eq (v : ValidatorObj) (e pw : String) (px : Option Proxy) :
    dispatch v "smtp" e pw px = v.validate_smtp.map (fun f => f e pw px) := rfl

/-- Unsupported or unknown method names are skipped by the escalation loop
without any observable effect: a run over a chain of skipped names equals
the run over the empty chain. -/
theorem try_loop_skips_unsupported (v : ValidatorObj) (email pw : String)
    (proxy : Option Proxy) (full : List String) :
    ∀ (rest : List String), (∀ m ∈ rest, dispatch v m email pw proxy = none) →
    ∀ (last : Option ResultDict) (st : EscState),
    try_loop v email pw proxy full rest last st =
      try_loop v email pw proxy full [] last st := by
  intro rest
  induction rest with
  | nil => intro _ last st; rfl
  | cons m t ih =>
    intro h last st
    have hm : dispatch v m email pw proxy = none := h m (List.mem_cons_self m t)
    simp only [try_loop, hm]
    exact ih (fun x hx => h x (List.mem_cons_of_mem m hx)) last st

/-- C4 counterexample.  The source takes `split('@')[1]` — the
segment after the *first* `@` — so `a@b@example.com` yields domain `"b"`,
not the rightmost split `"example.com"`; and no domain-pattern check is
performed: `user@x` yields domain `"x"` instead of failing. -/
theorem C4_counterexample :
    get_domain_from_email "a@b@example.com" ≠ some "example.com" ∧
    get_domain_from_email "user@x" ≠ none := by decide

/-- C4 amended.  `extractDomain` fails exactly when the address
contains no `@`; with several `@` it returns the segment between the first
and second `@` (`a@b@example.com` → `"b"`); it performs no pattern
validation, accepting domains that fail the spec's
`^[A-Za-z0-9.-]+\.[A-Za-z]\x7b2,\x7d$` pattern (such as `"x"`). -/
theorem C4_domain_extraction (email : String)
    (h : email.data.contains '@' = false) :
    get_domain_from_email email = none ∧
    get_domain_from_email "a@b@example.com" = some "b" ∧
    get_domain_from_email "user@x" = some "x" ∧
    specDomainPattern "x" = false := by
  refine ⟨?_, by decide, by decide, by decide⟩
  simp only [get_domain_from_email, h]
  rfl

/-- C4 witness: the amended theorem evaluated at `"not-an-email"`,
which contains no `@`. -/
theorem C4_domain_extraction_witness :
    get_domain_from_email "not-an-email" = none ∧
    get_domain_from_email "a@b@example.com" = some "b" ∧
    get_domain_from_email "user@x" = some "x" ∧
    specDomainPattern "x" = false :=
  C4_domain_extraction "not-an-email" (by decide)

/-- C9.  `Proxy.__str__` produces `user:pass@host:port` with *no*
scheme prefix (the serialized form contains no `://`), although the claim
— and the `Proxy(host, port, username, password, scheme)` call sites in
`app.py` — require a canonical `scheme://[user:pass@]host:port` form.
Evaluates the source's serialization at the failing input. -/
theorem C9_proxy_serialization :
    proxyStr ⟨"p.example.com", 8080, some "u", some "pw"⟩
      = "u:pw@p.example.com:8080" ∧
    infixOf ("://").data ("u:pw@p.example.com:8080").data = false ∧
    proxyStr ⟨"p.example.com", 8080, none, none⟩ = "p.example.com:8080" := by
  decide

/-- C8 counterexample.  When every listed method is unsupported the
synthetic verdict's status is `"no_methods_supported"`, not `"error"` as
the claim states. -/
theorem C8_counterexample :
    (try_methods_sync (realValidator deadNet) "user@example.com" ""
      ["telnet"] none).1.status = "no_methods_supported" ∧
    (try_methods_sync (realValidator deadNet) "user@example.com" ""
      ["telnet"] none).1.status ≠ "error" := by decide

/-- C8 amended.  Unknown or unsupported method names in the method
order are skipped without error; when every listed method is skipped
(including an empty order), `try_methods_sync` returns a synthetic verdict
with status `"no_methods_supported"` (not an `error` status), method
`"none"`, the fixed diagnostic, `is_valid = false`, no probe invoked, and
exactly one CSV append and one stats update. -/
theorem C8_all_methods_skipped (v : ValidatorObj) (email pw : String)
    (proxy : Option Proxy) (order : List String)
    (h : ∀ m ∈ order, dispatch v m email pw proxy = none) :
    (try_methods_sync v email pw order proxy).1.status
        = "no_methods_supported" ∧
    (try_methods_sync v email pw order proxy).1.method_used = "none" ∧
    (try_methods_sync v email pw order proxy).1.details
        = "Validator does not support any of the requested methods" ∧
    (try_methods_sync v email pw order proxy).1.is_valid = false ∧
    (try_methods_sync v email pw order proxy).2.invoked = [] ∧
    (try_methods_sync v email pw order proxy).2.csv.length = 1 ∧
    (try_methods_sync v email pw order proxy).2.statsUpdates = [false] := by
  have key := try_loop_skips_unsupported v email pw proxy order order h none
    EscState.empty
  unfold try_methods_sync
  rw [key]
  exact ⟨rfl, rfl, rfl, rfl, rfl, rfl, rfl⟩

/-- C8 witness: the amended theorem at the unknown method order
`["telnet"]` against the real validator over the dead network. -/
theorem C8_all_methods_skipped_witness :
    (try_methods_sync (realValidator deadNet) "user@example.com" ""
      ["telnet"] none).1.status = "no_methods_supported" ∧
    (try_methods_sync (realValidator deadNet) "user@example.com" ""
      ["telnet"] none).1.method_used = "none" ∧
    (try_methods_sync (realValidator deadNet) "user@example.com" ""
      ["telnet"] none).1.details
        = "Validator does not support any of the requested methods" ∧
    (try_methods_sync (realValidator deadNet) "user@example.com" ""
      ["telnet"] none).1.is_valid = false ∧
    (try_methods_sync (realValidator deadNet) "user@example.com" ""
      ["telnet"] none).2.invoked = [] ∧
    (try_methods_sync (realValidator deadNet) "user@example.com" ""
      ["telnet"] none).2.csv.length = 1 ∧
    (try_methods_sync (realValidator deadNet) "user@example.com" ""
      ["telnet"] none).2.statsUpdates = [false] :=
  C8_all_methods_skipped (realValidator deadNet) "user@example.com" ""
    none ["telnet"]
    (by intro m hm; simp only [List.mem_singleton] at hm; subst hm; rfl)

/-- C2.  The escalator iterates the caller-supplied order in sequence.
First conjunct: with order `[mx, smtp]` and an MX probe returning a `valid`
verdict, the result is that verdict's normalization, only `mx` is invoked
(the SMTP probe is never called) and no inter-attempt delay occurs.
Second conjunct: when MX returns `invalid` and SMTP returns `error`, both
probes run in order and the final result is the SMTP (last attempted)
verdict's normalization. -/
theorem C2_short_circuit_and_fallback :
    (∀ (v : ValidatorObj) (email pw : String) (proxy : Option Proxy)
        (r1 : ValidationResult),
      v.validate_mx = some (fun _ _ => ProbeOutcome.ok r1 []) →
      r1.status = "valid" →
      (try_methods_sync v email pw ["mx", "smtp"] proxy).2.invoked = ["mx"] ∧
      (try_methods_sync v email pw ["mx", "smtp"] proxy).2.sleeps = 0 ∧
      (try_methods_sync v email pw ["mx", "smtp"] proxy).1
        = normalizeResult r1 proxy) ∧
    (∀ (v : ValidatorObj) (email pw : String) (proxy : Option Proxy)
        (r1 r2 : ValidationResult),
      v.validate_mx = some (fun _ _ => ProbeOutcome.ok r1 []) →
      v.validate_smtp = some (fun _ _ _ => ProbeOutcome.ok r2 []) →
      r1.status = "invalid" → r2.status = "error" →
      (try_methods_sync v email pw ["mx", "smtp"] proxy).2.invoked
        = ["mx", "smtp"] ∧
      (try_methods_sync v email pw ["mx", "smtp"] proxy).1
        = normalizeResult r2 proxy) := by
  constructor
  · intro v email pw proxy r1 hmx hr1
    simp [try_methods_sync, try_loop, dispatch_mx_eq, dispatch_smtp_eq,
      hmx, hr1, EscState.empty]
  · intro v email pw proxy r1 r2 hmx hsmtp hr1 hr2
    simp [try_methods_sync, try_loop, dispatch_mx_eq, dispatch_smtp_eq,
      hmx, hsmtp, hr1, hr2, EscState.empty]

/-- C2 witness: both scenarios at concrete fake validators. -/
theorem C2_short_circuit_and_fallback_witness :
    ((try_methods_sync fakeValidatorA "user@example.com" "" ["mx", "smtp"]
        none).2.invoked = ["mx"] ∧
      (try_methods_sync fakeValidatorA "user@example.com" "" ["mx", "smtp"]
        none).2.sleeps = 0 ∧
      (try_methods_sync fakeValidatorA "user@example.com" "" ["mx", "smtp"]
        none).1 = normalizeResult mxValidVR none) ∧
    ((try_methods_sync fakeValidatorB "user@example.com" "" ["mx", "smtp"]
        none).2.invoked = ["mx", "smtp"] ∧
      (try_methods_sync fakeValidatorB "user@example.com" "" ["mx", "smtp"]
        none).1 = normalizeResult smtpErrorVR none) :=
  ⟨C2_short_circuit_and_fallback.1 fakeValidatorA "user@example.com" ""
      none mxValidVR rfl rfl,
    C2_short_circuit_and_fallback.2 fakeValidatorB "user@example.com" ""
      none mxInvalidVR smtpErrorVR rfl rfl rfl rfl⟩

/-- C10.  When a probe raises, the escalator substitutes an
error-status result for that method carrying `exception: ` plus the
exception's description, then continues with the remaining methods: with
order `[mx, smtp]` and a raising MX probe, both methods are invoked, the
recorded per-method results are the substituted MX error followed by the
SMTP verdict, and the final result is the SMTP verdict's normalization
(the exception never propagates — the escalation is a total function that
returns a result dict). -/
theorem C10_exception_substitution (v : ValidatorObj) (email pw : String)
    (proxy : Option Proxy) (d : String) (r2 : ValidationResult)
    (hmx : v.validate_mx = some (fun _ _ => ProbeOutcome.exn d []))
    (hsmtp : v.validate_smtp = some (fun _ _ _ => ProbeOutcome.ok r2 []))
    (hr2 : r2.status = "invalid") :
    (try_methods_sync v email pw ["mx", "smtp"] proxy).2.invoked
      = ["mx", "smtp"] ∧
    (try_methods_sync v email pw ["mx", "smtp"] proxy).2.history.map
      (fun x => x.status) = ["error", r2.status] ∧
    (try_methods_sync v email pw ["mx", "smtp"] proxy).2.history.map
      (fun x => x.method_used) = ["mx", r2.method] ∧
    (try_methods_sync v email pw ["mx", "smtp"] proxy).2.history.map
      (fun x => x.details) = ["exception: " ++ d, r2.details] ∧
    (try_methods_sync v email pw ["mx", "smtp"] proxy).1
      = normalizeResult r2 proxy := by
  simp [try_methods_sync, try_loop, dispatch_mx_eq, dispatch_smtp_eq,
    hmx, hsmtp, hr2, EscState.empty, normalizeResult, mkVR]

/-- C10 witness: the raising fake MX probe followed by a fake
`invalid` SMTP probe. -/
theorem C10_exception_substitution_witness :
    (try_methods_sync fakeValidatorExn "user@example.com" "" ["mx", "smtp"]
      none).2.invoked = ["mx", "smtp"] ∧
    (try_methods_sync fakeValidatorExn "user@example.com" "" ["mx", "smtp"]
      none).2.history.map (fun x => x.status)
        = ["error", smtpInvalidVR.status] ∧
    (try_methods_sync fakeValidatorExn "user@example.com" "" ["mx", "smtp"]
      none).2.history.map (fun x => x.method_used)
        = ["mx", smtpInvalidVR.method] ∧
    (try_methods_sync fakeValidatorExn "user@example.com" "" ["mx", "smtp"]
      none).2.history.map (fun x => x.details)
        = ["exception: " ++ "ValueError: boom", smtpInvalidVR.details] ∧
    (try_methods_sync fakeValidatorExn "user@example.com" "" ["mx", "smtp"]
      none).1 = normalizeResult smtpInvalidVR none :=
  C10_exception_substitution fakeValidatorExn "user@example.com" "" none
    "ValueError: boom" smtpInvalidVR rfl rfl rfl

/-- C1 counterexample.  For `user@mailinator.com` with the `auto`
order, the escalation's final verdict has `method_used = "http"` (the last
method in the order), not `"smtp"` as claimed: a `disposable` status does
not short-circuit the loop (only `"valid"` does). -/
theorem C1_counterexample :
    (try_methods_sync (realValidator deadNet) "user@mailinator.com" ""
      DEFAULT_METHOD_ORDER none).1.method_used ≠ "smtp" ∧
    (try_methods_sync (realValidator deadNet) "user@mailinator.com" ""
      DEFAULT_METHOD_ORDER none).1.status = "disposable" ∧
    (try_methods_sync (realValidator deadNet) "user@mailinator.com" ""
      DEFAULT_METHOD_ORDER none).1.method_used = "http" := by decide

/-- C1 amended.  For every address whose domain is in the disposable
set, the SMTP probe (first in the `auto` order) returns a `disposable`
verdict with *no* network I/O; but the escalation does not stop there: it
continues through the whole chain (a disposable verdict is not `valid`),
so for `user@mailinator.com` with the `auto` order the final verdict has
status `disposable`, `method_used = "http"` (the last method), details
`Disposable email detected`, all five methods invoked and an empty network
trace (in particular no SMTP connection is attempted). -/
theorem C1_disposable_handling (net : Network) (email pw : String)
    (proxy : Option Proxy) (h : check_disposable email = true) :
    validate_smtp net email pw proxy
      = (mkVR email "disposable" "smtp" "Disposable email detected" proxy,
        []) ∧
    ((try_methods_sync (realValidator net) "user@mailinator.com" ""
        DEFAULT_METHOD_ORDER none).1.status,
      (try_methods_sync (realValidator net) "user@mailinator.com" ""
        DEFAULT_METHOD_ORDER none).1.method_used,
      (try_methods_sync (realValidator net) "user@mailinator.com" ""
        DEFAULT_METHOD_ORDER none).1.details,
      (try_methods_sync (realValidator net) "user@mailinator.com" ""
        DEFAULT_METHOD_ORDER none).2.net,
      (try_methods_sync (realValidator net) "user@mailinator.com" ""
        DEFAULT_METHOD_ORDER none).2.invoked)
      = ("disposable", "http", "Disposable email detected",
        ([] : List NetEvent), DEFAULT_METHOD_ORDER) := by
  refine ⟨?_, rfl⟩
  have hd : ∃ dm, get_domain_from_email email = some dm ∧
      DISPOSABLE_DOMAINS.contains dm = true := by
    unfold check_disposable at h
    cases hg : get_domain_from_email email with
    | none => rw [hg] at h; cases h
    | some dm => rw [hg] at h; exact ⟨dm, rfl, h⟩
  obtain ⟨dm, hg, hmem⟩ := hd
  obtain ⟨cs⟩ := dm
  cases cs with
  | nil => exact absurd hmem (by decide)
  | cons c t => simp [EmailValidator.validate_smtp, hg, h]

/-- C1 witness: the amended theorem at `user@mailinator.com` over
the dead network. -/
theorem C1_disposable_handling_witness :
    validate_smtp deadNet "user@mailinator.com" "" none
      = (mkVR "user@mailinator.com" "disposable" "smtp"
          "Disposable email detected" none, []) ∧
    ((try_methods_sync (realValidator deadNet) "user@mailinator.com" ""
        DEFAULT_METHOD_ORDER none).1.status,
      (try_methods_sync (realValidator deadNet) "user@mailinator.com" ""
        DEFAULT_METHOD_ORDER none).1.method_used,
      (try_methods_sync (realValidator deadNet) "user@mailinator.com" ""
        DEFAULT_METHOD_ORDER none).1.details,
      (try_methods_sync (realValidator deadNet) "user@mailinator.com" ""
        DEFAULT_METHOD_ORDER none).2.net,
      (try_methods_sync (realValidator deadNet) "user@mailinator.com" ""
        DEFAULT_METHOD_ORDER none).2.invoked)
      = ("disposable", "http", "Disposable email detected",
        ([] : List NetEvent), DEFAULT_METHOD_ORDER) :=
  C1_disposable_handling deadNet "user@mailinator.com" "" none (by decide)

/-- C5 counterexample.  For the syntactically invalid address
`not-an-email` with the `auto` order, the final verdict's `method_used` is
`"http"` — the name of the last probe attempted — never `"syntax"` (no
such method string exists in the source). -/
theorem C5_counterexample :
    (try_methods_sync (realValidator deadNet) "not-an-email" ""
      DEFAULT_METHOD_ORDER none).1.method_used ≠ "syntax" ∧
    (try_methods_sync (realValidator deadNet) "not-an-email" ""
      DEFAULT_METHOD_ORDER none).1.method_used = "http" := by decide

/-- C5 amended.  For every address without an `@`, the SMTP and MX
probes return an `error` verdict with details `Invalid email format` and
an empty network trace (no network I/O); the escalation of
`"not-an-email"` under the `auto` order returns status `"error"` with an
empty network trace, but its `method_used` is the last attempted probe's
name (`"http"`), not `"syntax"`. -/
theorem C5_syntax_failure (net : Network) (email pw : String)
    (proxy : Option Proxy) (h : email.data.contains '@' = false) :
    validate_smtp net email pw proxy
      = (mkVR email "error" "smtp" "Invalid email format" proxy, []) ∧
    validate_mx net email proxy
      = (mkVR email "error" "mx" "Invalid email format" proxy, []) ∧
    ((try_methods_sync (realValidator net) "not-an-email" ""
        DEFAULT_METHOD_ORDER none).1.status,
      (try_methods_sync (realValidator net) "not-an-email" ""
        DEFAULT_METHOD_ORDER none).1.method_used,
      (try_methods_sync (realValidator net) "not-an-email" ""
        DEFAULT_METHOD_ORDER none).2.net)
      = ("error", "http", ([] : List NetEvent)) := by
  have hg : get_domain_from_email email = none := by
    simp only [get_domain_from_email, h]
    rfl
  exact ⟨by simp [EmailValidator.validate_smtp, hg],
    by simp [EmailValidator.validate_mx, hg], rfl⟩

/-- C5 witness: the amended theorem at `"not-an-email"` over the
dead network. -/
theorem C5_syntax_failure_witness :
    validate_smtp deadNet "not-an-email" "" none
      = (mkVR "not-an-email" "error" "smtp" "Invalid email format" none,
        []) ∧
    validate_mx deadNet "not-an-email" none
      = (mkVR "not-an-email" "error" "mx" "Invalid email format" none,
        []) ∧
    ((try_methods_sync (realValidator deadNet) "not-an-email" ""
        DEFAULT_METHOD_ORDER none).1.status,
      (try_methods_sync (realValidator deadNet) "not-an-email" ""
        DEFAULT_METHOD_ORDER none).1.method_used,
      (try_methods_sync (realValidator deadNet) "not-an-email" ""
        DEFAULT_METHOD_ORDER none).2.net)
      = ("error", "http", ([] : List NetEvent)) :=
  C5_syntax_failure deadNet "not-an-email" "" none (by decide)

/-- C6 counterexample.  An unexpected RCPT TO reply code (471)
yields an `invalid` verdict, not `error`; and exhaustion of all MX
hosts/ports by connection failure also yields `invalid` (the "all MX
servers failed or refused" fallthrough), not `error` as claimed. -/
theorem C6_counterexample :
    (validate_smtp net471 "user@example.com" "" none).1.status
      = "invalid" ∧
    (validate_smtp net471 "user@example.com" "" none).1.status ≠ "error" ∧
    (validate_smtp net471 "user@example.com" "" none).1.details
      = "SMTP RCPT TO: unexpected code 471 - greylisted" ∧
    (validate_smtp netUnreachable "user@example.com" "" none).1.status
      = "invalid" ∧
    (validate_smtp netUnreachable "user@example.com" "" none).1.details
      = "Could not validate via SMTP (all MX servers failed or refused)" := by
  decide

/-- C6 amended.  With MX records resolved and the first host's SMTP
session reaching RCPT TO: reply code 250 yields `valid`, 550 yields
`invalid` with the rejection details, and any other code yields `invalid`
(not `error`) with an "unexpected code" diagnostic; when every host/port
connection fails, the verdict is `invalid` with the "all MX servers failed
or refused" diagnostic (not `error`).  An `error` verdict arises only from
unexpected exceptions, not from unreachability or odd reply codes. -/
theorem C6_smtp_classification (net : Network) (email pw : String)
    (proxy : Option Proxy) (dm host : String) (t : List String)
    (hg : get_domain_from_email email = some dm)
    (hne : dm.data.isEmpty = false)
    (hdisp : check_disposable email = false)
    (hmx : net.dnsMX dm = DnsMX.records (host :: t)) :
    (∀ (c : Nat) (m : String), net.smtp host 25 = SmtpConn.reply c m →
      (validate_smtp net email pw proxy).1.status
        = (if c = 250 then "valid" else "invalid") ∧
      (c = 250 → (validate_smtp net email pw proxy).1.details
        = "SMTP RCPT TO success") ∧
      (c = 550 → (validate_smtp net email pw proxy).1.details
        = "SMTP RCPT TO failed: " ++ m)) ∧
    ((∀ x p, net.smtp x p = SmtpConn.connectFail) →
      (validate_smtp net email pw proxy).1
        = mkVR email "invalid" "smtp"
            "Could not validate via SMTP (all MX servers failed or refused)"
            proxy) := by
  constructor
  · intro c m hcon
    have hv : (validate_smtp net email pw proxy).1
        = (if c = 250 then
            mkVR email "valid" "smtp" "SMTP RCPT TO success" proxy
          else if c = 550 then
            mkVR email "invalid" "smtp" ("SMTP RCPT TO failed: " ++ m) proxy
          else
            mkVR email "invalid" "smtp"
              ("SMTP RCPT TO: unexpected code " ++ toString c ++ " - " ++ m)
              proxy) := by
      simp [EmailValidator.validate_smtp, hg, hne, hdisp, hmx,
        smtp_hosts_loop, smtp_ports_loop, SMTP_PORTS, hcon]
    refine ⟨?_, ?_, ?_⟩
    · rw [hv]
      by_cases h250 : c = 250
      · simp [h250, mkVR]
      · by_cases h550 : c = 550 <;> simp [h250, h550, mkVR]
    · intro h250
      rw [hv]
      simp [h250, mkVR]
    · intro h550
      have h250 : ¬ c = 250 := by rw [h550]; decide
      rw [hv]
      simp [h250, h550, mkVR]
  · intro hall
    have hloop : ∀ hs : List String,
        (smtp_hosts_loop net email proxy hs).1
          = mkVR email "invalid" "smtp"
              "Could not validate via SMTP (all MX servers failed or refused)"
              proxy := by
      intro hs
      induction hs with
      | nil => rfl
      | cons x xs ih =>
        simp [smtp_hosts_loop, smtp_ports_loop, SMTP_PORTS, hall, ih]
    simp [EmailValidator.validate_smtp, hg, hne, hdisp, hmx, hloop]

/-- C6 witness: the classification at the concrete oracles `net471`
(reply code 471) and `netUnreachable` (every connection refused). -/
theorem C6_smtp_classification_witness :
    (validate_smtp net471 "user@example.com" "" none).1.status
      = (if 471 = 250 then "valid" else "invalid") ∧
    (validate_smtp netUnreachable "user@example.com" "" none).1
      = mkVR "user@example.com" "invalid" "smtp"
          "Could not validate via SMTP (all MX servers failed or refused)"
          none :=
  ⟨((C6_smtp_classification net471 "user@example.com" "" none "example.com"
      "mx1.example.com." [] (by decide) (by decide) (by decide) rfl).1
      471 "greylisted" rfl).1,
    (C6_smtp_classification netUnreachable "user@example.com" "" none
      "example.com" "mx1.example.com." [] (by decide) (by decide)
      (by decide) rfl).2 (fun _ _ => rfl)⟩

/-- A verdict returned from within the IMAP port loop is `valid` or
`invalid`, never `error`. -/
theorem imap_ports_loop_ret_status (conn : Nat → LoginConn)
    (email host : String) (proxy : Option Proxy) :
    ∀ (ports : List Nat) (v : ValidationResult),
    (imap_ports_loop conn email host proxy ports).1 = LoginInner.ret v →
    v.status = "valid" ∨ v.status = "invalid" := by
  intro ports
  induction ports with
  | nil => intro v h; simp [imap_ports_loop] at h
  | cons p ps ih =>
    intro v h
    rw [imap_ports_loop] at h
    cases hc : conn p <;> rw [hc] at h <;> simp at h
    case loginOk => subst h; left; rfl
    case loginFail => subst h; right; rfl
    case connFail => exact ih v h

/-- The IMAP host loop never produces an `error` status. -/
theorem imap_hosts_loop_no_error (net : Network) (email : String)
    (proxy : Option Proxy) :
    ∀ hosts : List String,
    (imap_hosts_loop net email proxy hosts).1.status ≠ "error" := by
  intro hosts
  induction hosts with
  | nil => simp [imap_hosts_loop, mkVR]
  | cons x xs ih =>
    rw [imap_hosts_loop]
    cases hp : imap_ports_loop (net.imap x) email x proxy IMAP_PORTS with
    | mk o ev =>
      cases o
      case ret v =>
        have hst := imap_ports_loop_ret_status (net.imap x) email x proxy
          IMAP_PORTS v (by rw [hp])
        show v.status ≠ "error"
        rcases hst with h | h <;> rw [h] <;> decide
      case exhausted => exact ih
      case hostAbort => exact ih

/-- A verdict returned from within the POP3 port loop is `valid` or
`invalid`, never `error`. -/
theorem pop3_ports_loop_ret_status (conn : Nat → LoginConn)
    (email host : String) (proxy : Option Proxy) :
    ∀ (ports : List Nat) (v : ValidationResult),
    (pop3_ports_loop conn email host proxy ports).1 = LoginInner.ret v →
    v.status = "valid" ∨ v.status = "invalid" := by
  intro ports
  induction ports with
  | nil => intro v h; simp [pop3_ports_loop] at h
  | cons p ps ih =>
    intro v h
    rw [pop3_ports_loop] at h
    cases hc : conn p <;> rw [hc] at h <;> simp at h
    case loginOk => subst h; left; rfl
    case loginFail => subst h; right; rfl
    case connFail => exact ih v h

/-- The POP3 host loop never produces an `error` status. -/
theorem pop3_hosts_loop_no_error (net : Network) (email : String)
    (proxy : Option Proxy) :
    ∀ hosts : List String,
    (pop3_hosts_loop net email proxy hosts).1.status ≠ "error" := by
  intro hosts
  induction hosts with
  | nil => simp [pop3_hosts_loop, mkVR]
  | cons x xs ih =>
    rw [pop3_hosts_loop]
    cases hp : pop3_ports_loop (net.pop3 x) email x proxy POP3_PORTS with
    | mk o ev =>
      cases o
      case ret v =>
        have hst := pop3_ports_loop_ret_status (net.pop3 x) email x proxy
          POP3_PORTS v (by rw [hp])
        show v.status ≠ "error"
        rcases hst with h | h <;> rw [h] <;> decide
      case exhausted => exact ih
      case hostAbort => exact ih

/-- C7.  For the IMAP and POP3 probes: when every host/port connection
attempt fails (no explicit protocol-level rejection), the verdict is
`invalid` with the "could not connect ... (all attempts failed)"
diagnostic — not `error`; and an `error` verdict from these probes arises
only from a missing (falsy) password or a malformed address (no usable
domain), never from connectivity failure. -/
theorem C7_conn_failure_classification :
    (∀ (net : Network) (email pw : String) (proxy : Option Proxy)
        (dm : String),
      pw.data.isEmpty = false → check_disposable email = false →
      get_domain_from_email email = some dm → dm.data.isEmpty = false →
      (∀ x p, net.imap x p = LoginConn.connFail) →
      (validate_imap net email pw proxy).1
        = mkVR email "invalid" "imap"
            "Could not connect or login via IMAP (all attempts failed)"
            proxy) ∧
    (∀ (net : Network) (email pw : String) (proxy : Option Proxy)
        (dm : String),
      pw.data.isEmpty = false → check_disposable email = false →
      get_domain_from_email email = some dm → dm.data.isEmpty = false →
      (∀ x p, net.pop3 x p = LoginConn.connFail) →
      (validate_pop3 net email pw proxy).1
        = mkVR email "invalid" "pop3"
            "Could not connect or login via POP3 (all attempts failed)"
            proxy) ∧
    (∀ (net : Network) (email pw : String) (proxy : Option Proxy),
      (validate_imap net email pw proxy).1.status = "error" →
      pw.data.isEmpty = true ∨
        pyTruthy (get_domain_from_email email) = false) ∧
    (∀ (net : Network) (email pw : String) (proxy : Option Proxy),
      (validate_pop3 net email pw proxy).1.status = "error" →
      pw.data.isEmpty = true ∨
        pyTruthy (get_domain_from_email email) = false) := by
  refine ⟨?_, ?_, ?_, ?_⟩
  · intro net email pw proxy dm hpw hdisp hg hne hall
    simp [EmailValidator.validate_imap, hpw, hdisp, hg, hne,
      imap_hosts_loop, imap_ports_loop, IMAP_PORTS, hall]
  · intro net email pw proxy dm hpw hdisp hg hne hall
    simp [EmailValidator.validate_pop3, hpw, hdisp, hg, hne,
      pop3_hosts_loop, pop3_ports_loop, POP3_PORTS, hall]
  · intro net email pw proxy h
    by_cases hpw : pw.data.isEmpty
    · exact Or.inl hpw
    · right
      rw [Bool.not_eq_true] at hpw
      cases hg : get_domain_from_email email with
      | none => simp [pyTruthy, hg]
      | some dm =>
        by_cases hdisp : check_disposable email
        · simp [EmailValidator.validate_imap, hpw, hdisp, mkVR] at h
        · rw [Bool.not_eq_true] at hdisp
          cases hne : dm.data.isEmpty with
          | true => simp [pyTruthy, hg, hne]
          | false =>
            simp [EmailValidator.validate_imap, hpw, hdisp, hg, hne] at h
            exact absurd h (imap_hosts_loop_no_error net email proxy _)
  · intro net email pw proxy h
    by_cases hpw : pw.data.isEmpty
    · exact Or.inl hpw
    · right
      rw [Bool.not_eq_true] at hpw
      cases hg : get_domain_from_email email with
      | none => simp [pyTruthy, hg]
      | some dm =>
        by_cases hdisp : check_disposable email
        · simp [EmailValidator.validate_pop3, hpw, hdisp, mkVR] at h
        · rw [Bool.not_eq_true] at hdisp
          cases hne : dm.data.isEmpty with
          | true => simp [pyTruthy, hg, hne]
          | false =>
            simp [EmailValidator.validate_pop3, hpw, hdisp, hg, hne] at h
            exact absurd h (pop3_hosts_loop_no_error net email proxy _)

/-- C7 witness: the connectivity-exhaustion conclusion at the dead
network with a supplied password, and the error-only-if conclusion at an
empty password. -/
theorem C7_conn_failure_classification_witness :
    (validate_imap deadNet "user@example.com" "pw" none).1
      = mkVR "user@example.com" "invalid" "imap"
          "Could not connect or login via IMAP (all attempts failed)"
          none ∧
    (validate_pop3 deadNet "user@example.com" "pw" none).1
      = mkVR "user@example.com" "invalid" "pop3"
          "Could not connect or login via POP3 (all attempts failed)"
          none ∧
    (("" : String).data.isEmpty = true ∨
      pyTruthy (get_domain_from_email "user@example.com") = false) ∧
    (("" : String).data.isEmpty = true ∨
      pyTruthy (get_domain_from_email "nopassword@example.com") = false) :=
  ⟨C7_conn_failure_classification.1 deadNet "user@example.com" "pw" none
      "example.com" rfl (by decide) (by decide) rfl (fun _ _ => rfl),
    C7_conn_failure_classification.2.1 deadNet "user@example.com" "pw" none
      "example.com" rfl (by decide) (by decide) rfl (fun _ _ => rfl),
    C7_conn_failure_classification.2.2.1 deadNet "user@example.com" "" none
      (by decide),
    C7_conn_failure_classification.2.2.2 deadNet "nopassword@example.com" ""
      none (by decide)⟩

/-- Each stats update increments `checked` by exactly one. -/
theorem apply_updates_checked (bs : List Bool) :
    ∀ s : Stats, (apply_updates s bs).checked = s.checked + bs.length := by
  induction bs with
  | nil => intro s; rfl
  | cons b t ih =>
    intro s
    show (apply_updates (update_stats s b) t).checked = _
    rw [ih]
    simp [update_stats]
    omega

/-- Each stats update increments exactly one of `good` and `bad`. -/
theorem apply_updates_goodbad (bs : List Bool) :
    ∀ s : Stats, (apply_updates s bs).good + (apply_updates s bs).bad
      = s.good + s.bad + bs.length := by
  induction bs with
  | nil => intro s; rfl
  | cons b t ih =>
    intro s
    show (apply_updates (update_stats s b) t).good
        + (apply_updates (update_stats s b) t).bad = _
    rw [ih]
    cases b <;> simp [update_stats] <;> omega

/-- Each stats update decrements `remaining` by one, floored at zero. -/
theorem apply_updates_remaining (bs : List Bool) :
    ∀ s : Stats, (apply_updates s bs).remaining = s.remaining - bs.length := by
  induction bs with
  | nil => intro s; rfl
  | cons b t ih =>
    intro s
    show (apply_updates (update_stats s b) t).remaining = _
    rw [ih]
    simp [update_stats]
    omega

/-- Every run of the escalation loop performs at least one stats update
(every executed method performs one, and the no-method fallback performs
one as well). -/
theorem try_loop_statsUpdates_ne_nil (v : ValidatorObj) (email pw : String)
    (proxy : Option Proxy) (full : List String) :
    ∀ (rest : List String) (last : Option ResultDict) (st : EscState),
    (last.isSome → st.statsUpdates ≠ []) →
    (try_loop v email pw proxy full rest last st).2.statsUpdates ≠ [] := by
  intro rest
  induction rest with
  | nil =>
    intro last st h
    cases last with
    | none => simp [try_loop]
    | some d => exact h rfl
  | cons m t ih =>
    intro last st h
    cases hd : dispatch v m email pw proxy with
    | none =>
      rw [try_loop, hd]
      exact ih last st h
    | some o =>
      rw [try_loop, hd]
      dsimp only
      split
      · simp
      · apply ih
        intro _
        split <;> simp

/-- Every batch item performs at least one stats update. -/
theorem validate_item_updates_ne_nil (v : ValidatorObj) (order : List String)
    (item : BatchItem) :
    (validate_item v order item).2.statsUpdates ≠ [] := by
  cases item with
  | str s =>
    rw [validate_item]
    split
    · simp [missingItemResult, EscState.empty]
    · exact try_loop_statsUpdates_ne_nil v s "" none order order none
        EscState.empty (fun hcontra => nomatch hcontra)
  | obj e pw px =>
    cases e with
    | none => simp [validate_item, missingItemResult, EscState.empty]
    | some s =>
      rw [validate_item]
      split
      · simp [missingItemResult, EscState.empty]
      · exact try_loop_statsUpdates_ne_nil v s pw px order order none
          EscState.empty (fun hcontra => nomatch hcontra)

/-- A batch of `n` items performs at least `n` stats updates. -/
theorem batch_updates_length_ge (v : ValidatorObj) (order : List String) :
    ∀ items : List BatchItem,
    (batch_updates v order items).length ≥ items.length := by
  intro items
  induction items with
  | nil => simp [batch_updates, run_batch]
  | cons i t ih =>
    have hne := validate_item_updates_ne_nil v order i
    have hsplit : batch_updates v order (i :: t)
        = (validate_item v order i).2.statsUpdates
          ++ batch_updates v order t := by
      simp [batch_updates, run_batch]
    rw [hsplit, List.length_append]
    have h1 : 1 ≤ (validate_item v order i).2.statsUpdates.length := by
      cases hq : (validate_item v order i).2.statsUpdates with
      | nil => exact absurd hq hne
      | cons a b => simp
    simp only [List.length_cons]
    omega

/-- C3 counterexample.  A batch of one item whose escalation tries
two methods (both non-valid) performs *two* CSV appends and *two* stats
updates — not "exactly one Result Sink update" per item — so `checked`
ends at 2 for a batch of N = 1 items. -/
theorem C3_counterexample :
    (batch_final_stats (realValidator deadNet) ["mx", "smtp"]
      [BatchItem.str "user@example.com"]).checked = 2 ∧
    ([BatchItem.str "user@example.com"] : List BatchItem).length = 1 ∧
    (batch_final_stats (realValidator deadNet) ["mx", "smtp"]
      [BatchItem.str "user@example.com"]).checked ≠ 1 ∧
    (run_batch (realValidator deadNet) ["mx", "smtp"]
      [BatchItem.str "user@example.com"]).map (fun p => p.2.csv.length)
      = [2] ∧
    (run_batch (realValidator deadNet) ["mx", "smtp"]
      [BatchItem.str "user@example.com"]).map
        (fun p => p.2.statsUpdates.length) = [2] := by decide

/-- C3 amended.  The Result Sink is updated once per *attempted
method* (and once for each synthetic error), not once per item: after a
batch of N items, `checked` equals the total number of sink updates, which
is at least N (`checked == N` only when every item settles in one
attempt); `good + bad == checked`; and `remaining == 0` (it is
`N - checked` with saturating subtraction). -/
theorem C3_batch_progress_counters (v : ValidatorObj) (order : List String)
    (items : List BatchItem) :
    (batch_final_stats v order items).checked
      = (batch_updates v order items).length ∧
    (batch_final_stats v order items).good
        + (batch_final_stats v order items).bad
      = (batch_updates v order items).length ∧
    (batch_updates v order items).length ≥ items.length ∧
    (batch_final_stats v order items).remaining = 0 := by
  have hge := batch_updates_length_ge v order items
  refine ⟨?_, ?_, hge, ?_⟩
  · rw [batch_final_stats, apply_updates_checked]
    simp [init_stats]
  · rw [batch_final_stats, apply_updates_goodbad]
    simp [init_stats]
  · rw [batch_final_stats, apply_updates_remaining]
    simp only [init_stats]
    omega

end Validator
